import Mathlib

/-!
Shallow embedding of the Call_Session_Management service
(Go + PostgreSQL, github.com/vasu74/Call_Session_Management).

Timestamps are modelled as `Int` (seconds); UUIDs and free text as `String`;
JSONB metadata as an opaque optional `String`.  The relational store is a pair
of row lists; each SQL statement of the source is one Lean function that is
atomic on the store, mirroring single-statement atomicity.

* `casEndUpdate`   embeds the conditional `UPDATE sessions ... WHERE id = $4
  AND status = 'ongoing'` of `Session.EndSession` (internal/model/session.go),
  including the `valid_session_times` check constraint of the schema
  (internal/config/db.go).
* `endSessionPhased` embeds the two storage round trips of
  `Session.EndSession`: the pre-read `SELECT`, the application status check,
  and the conditional update; the two `DB` arguments are the store states seen
  by the read and by the update, so an interleaved writer can be expressed.
* `logEvent`       embeds `SessionEvent.LogEvent`
  (internal/model/session_event.go), including the `valid_event_time` check
  constraint (`event_time >= CURRENT_TIMESTAMP - INTERVAL '1 year'`).
* `getSessionDetails`, `listSessions`, `buildListQuery`, `parseFilter`,
  `listSessionsHandler` embed `GetSessionDetails`, `ListSessions`
  (internal/model/session.go) and `ListSessionsHandler`
  (internal/handler/SessionHandler.go).
* `register`       embeds `User.Register` (internal/model, user file).
-/

namespace CallSession

/-- `session_status` enum: 'ongoing' | 'completed' | 'failed'. -/
inductive SessionStatus where
  | ongoing
  | completed
  | failed
  deriving DecidableEq, Repr

/-- The string form of a status, as stored in the `status` column. -/
def SessionStatus.str : SessionStatus → String
  | .ongoing => "ongoing"
  | .completed => "completed"
  | .failed => "failed"

/-- A row of the `sessions` table. -/
structure SessionRow where
  id : String
  startedAt : Int
  endedAt : Option Int
  callerId : String
  calleeId : String
  status : SessionStatus
  initialMetadata : Option String
  disposition : Option String
  createdAt : Int
  updatedAt : Int
  deriving DecidableEq, Repr

/-- A row of the `session_events` table. -/
structure EventRow where
  id : String
  sessionId : String
  eventType : String
  eventTime : Int
  metadata : Option String
  createdAt : Int
  deriving DecidableEq, Repr

/-- The relational store: `sessions` and `session_events`. -/
structure DB where
  sessions : List SessionRow
  events : List EventRow
  deriving DecidableEq, Repr

/-- `EndSessionRequest`: status, disposition, end_time. -/
structure EndSessionRequest where
  status : SessionStatus
  disposition : String
  endTime : Int
  deriving DecidableEq, Repr

/-- The gin binding `oneof=completed failed` on `EndSessionRequest.Status`:
requests whose status is not a terminal value are rejected with 400 before
`Session.EndSession` runs. -/
def EndSessionRequest.wellFormed (r : EndSessionRequest) : Bool :=
  r.status == .completed || r.status == .failed

/-- `LogEventRequest`: event_type, event_time, metadata. -/
structure LogEventRequest where
  eventType : String
  eventTime : Int
  metadata : Option String
  deriving DecidableEq, Repr

/-- `SELECT ... FROM sessions WHERE id = $1` — `id` is the primary key, so at
most one row matches; `find?` returns it. -/
def findSession (db : DB) (sid : String) : Option SessionRow :=
  db.sessions.find? (fun s => s.id == sid)

/-- `INTERVAL '1 year'`, in seconds. -/
def oneYear : Int := 31536000

/-- Outcome of the conditional `UPDATE` statement: a row was updated and
returned (`RETURNING`), no row matched (`sql.ErrNoRows` on the `QueryRow`), or
the `valid_session_times` check constraint aborted the statement. -/
inductive UpdateOutcome where
  | updated (row : SessionRow)
  | noRows
  | checkViolation
  deriving DecidableEq, Repr

/-- The transformation the `UPDATE ... SET status = $1, disposition = $2,
ended_at = $3, updated_at = CURRENT_TIMESTAMP` applies to a matching row. -/
def applyEnd (req : EndSessionRequest) (now : Int) (r : SessionRow) : SessionRow :=
  { r with status := req.status, disposition := some req.disposition,
           endedAt := some req.endTime, updatedAt := now }

/-- The conditional update of `Session.EndSession`:
`UPDATE sessions SET ... WHERE id = $4 AND status = 'ongoing' RETURNING ...`.
The `valid_session_times` constraint (`ended_at IS NULL OR ended_at >=
started_at`) is checked on the written row; a violation aborts the statement
and leaves the store unchanged. -/
def casEndUpdate (db : DB) (sid : String) (req : EndSessionRequest) (now : Int) :
    DB × UpdateOutcome :=
  match findSession db sid with
  | none => (db, .noRows)
  | some s =>
    if s.status = .ongoing then
      if s.startedAt ≤ req.endTime then
        ({ db with sessions := db.sessions.map (fun r =>
              if r.id == sid && r.status == SessionStatus.ongoing then
                applyEnd req now r
              else r) },
         .updated (applyEnd req now s))
      else (db, .checkViolation)
    else (db, .noRows)

/-- Typed failures of `Session.EndSession`, one per distinct error string. -/
inductive EndError where
  | notFound
  | alreadyEnded (st : SessionStatus)
  | raceLost
  | timeCheckFailed
  deriving DecidableEq, Repr

/-- `Session.EndSession`, with its two storage round trips made explicit:
`dbRead` is the store state the pre-read `SELECT` sees, `dbUpd` the state the
conditional `UPDATE` runs against (they differ when another request commits in
between).  Mirrors internal/model/session.go lines 136-178:
fetch by id (`notFound` on no rows); reject non-ongoing
(`alreadyEnded` with the read status in the message); otherwise run the
conditional update, mapping zero affected rows to the race-lost error and a
`valid_session_times` violation to the constraint error. -/
def endSessionPhased (dbRead dbUpd : DB) (sid : String) (req : EndSessionRequest)
    (now : Int) : DB × Except EndError SessionRow :=
  match findSession dbRead sid with
  | none => (dbUpd, .error .notFound)
  | some s =>
    if s.status = .ongoing then
      match casEndUpdate dbUpd sid req now with
      | (db2, .updated row) => (db2, .ok row)
      | (db2, .noRows) => (db2, .error .raceLost)
      | (db2, .checkViolation) => (db2, .error .timeCheckFailed)
    else (dbUpd, .error (.alreadyEnded s.status))

/-- `Session.EndSession` when no other request interleaves between its read
and its update. -/
def endSession (db : DB) (sid : String) (req : EndSessionRequest) (now : Int) :
    DB × Except EndError SessionRow :=
  endSessionPhased db db sid req now

/-- The HTTP status `EndSessionHandler` (internal/handler/SessionHandler.go
lines 83-101) maps each outcome to: 404 for "session not found", 409 for the
two already-ended messages and the race message, 400 when the error mentions
`valid_session_times`, 500 otherwise, 200 on success. -/
def endHandlerStatus : Except EndError SessionRow → Nat
  | .ok _ => 200
  | .error .notFound => 404
  | .error (.alreadyEnded _) => 409
  | .error .raceLost => 409
  | .error .timeCheckFailed => 400

/-- Typed failures of `SessionEvent.LogEvent`. -/
inductive LogError where
  | notFound
  | sessionEnded
  | eventTimeCheckFailed
  deriving DecidableEq, Repr

/-- `SessionEvent.LogEvent` (internal/model/session_event.go lines 58-97):
`SELECT status FROM sessions WHERE id = $1` (`notFound` on no rows); reject a
non-ongoing session ("cannot log events for ended session"); then `INSERT INTO
session_events ...` with server-assigned id `newId` and `created_at = now`,
subject to the `valid_event_time` check constraint
`event_time >= CURRENT_TIMESTAMP - INTERVAL '1 year'`. -/
def logEvent (db : DB) (sid : String) (req : LogEventRequest) (newId : String)
    (now : Int) : DB × Except LogError EventRow :=
  match findSession db sid with
  | none => (db, .error .notFound)
  | some s =>
    if s.status = .ongoing then
      if now - oneYear ≤ req.eventTime then
        let e : EventRow :=
          { id := newId, sessionId := sid, eventType := req.eventType,
            eventTime := req.eventTime, metadata := req.metadata, createdAt := now }
        ({ db with events := db.events ++ [e] }, .ok e)
      else (db, .error .eventTimeCheckFailed)
    else (db, .error .sessionEnded)

/-- The HTTP status `LogSessionEventHandler` (internal/handler/SessionHandler.go
lines 46-61) maps each outcome to: 404 for "session not found", 400 when the
error mentions `valid_event_time`, 500 otherwise (the ended-session error
reaches the fall-through branch), 201 on success. -/
def logHandlerStatus : Except LogError EventRow → Nat
  | .ok _ => 201
  | .error .notFound => 404
  | .error .eventTimeCheckFailed => 400
  | .error .sessionEnded => 500

/-- A failure of `GetSessionDetails`. -/
inductive GetError where
  | notFound
  deriving DecidableEq, Repr

/-- `ORDER BY event_time ASC`: the ordering relation of the events query. -/
def eventLE (a b : EventRow) : Prop := a.eventTime ≤ b.eventTime

instance : DecidableRel eventLE := fun a b => Int.decLe a.eventTime b.eventTime

instance : IsTotal EventRow eventLE := ⟨fun a b => Int.le_total a.eventTime b.eventTime⟩

instance : IsTrans EventRow eventLE := ⟨fun _ _ _ h1 h2 => le_trans h1 h2⟩

/-- `GetSessionDetails` (internal/model/session.go lines 181-224): fetch the
session by id (`notFound` on no rows), then
`SELECT ... FROM session_events WHERE session_id = $1 ORDER BY event_time ASC`. -/
def getSessionDetails (db : DB) (sid : String) :
    Except GetError (SessionRow × List EventRow) :=
  match findSession db sid with
  | none => .error .notFound
  | some s =>
    .ok (s, List.insertionSort eventLE (db.events.filter (fun e => e.sessionId == sid)))

/-- `SessionFilter` (internal/model/session.go lines 86-97).  Status is kept as
a raw string, as in the Go struct, since the handler compares it against the
three known values; the zero value of each field marks it unset. -/
structure SessionFilter where
  startDate : Option Int := none
  endDate : Option Int := none
  status : String := ""
  callerId : String := ""
  calleeId : String := ""
  limit : Int := 0
  offset : Int := 0
  sortByCol : String := ""
  sortOrder : String := ""
  deriving DecidableEq, Repr

/-- The `WHERE` clause `ListSessions` builds: `1=1`, then `started_at >= $n`,
`started_at <= $n`, `status = $n`, `caller_id = $n`, `callee_id = $n`, each
added only when the corresponding filter field is set. -/
def matchesFilter (f : SessionFilter) (s : SessionRow) : Bool :=
  (match f.startDate with | some d => d ≤ s.startedAt | none => true) &&
  (match f.endDate with | some d => s.startedAt ≤ d | none => true) &&
  (f.status == "" || s.status.str == f.status) &&
  (f.callerId == "" || s.callerId == f.callerId) &&
  (f.calleeId == "" || s.calleeId == f.calleeId)

/-- Ordering on `Option Int` used for the nullable `ended_at` column
(Postgres sorts NULLs after all values in ascending order). -/
def optIntLE : Option Int → Option Int → Bool
  | some a, some b => a ≤ b
  | some _, none => true
  | none, some _ => false
  | none, none => true

/-- Ordering on `Option String` for the nullable text columns. -/
def optStrLE : Option String → Option String → Bool
  | some a, some b => a ≤ b
  | some _, none => true
  | none, some _ => false
  | none, none => true

/-- Ascending comparison of two session rows under a named column of the
`sessions` table (the `ORDER BY %s` target). -/
def colLE (c : String) (a b : SessionRow) : Bool :=
  if c == "started_at" then a.startedAt ≤ b.startedAt
  else if c == "created_at" then a.createdAt ≤ b.createdAt
  else if c == "updated_at" then a.updatedAt ≤ b.updatedAt
  else if c == "ended_at" then optIntLE a.endedAt b.endedAt
  else if c == "caller_id" then a.callerId ≤ b.callerId
  else if c == "callee_id" then a.calleeId ≤ b.calleeId
  else if c == "id" then a.id ≤ b.id
  else if c == "status" then a.status.str ≤ b.status.str
  else if c == "disposition" then optStrLE a.disposition b.disposition
  else optStrLE a.initialMetadata b.initialMetadata

/-- The column names of the `sessions` table: the only identifiers Postgres
accepts after `ORDER BY` in the interpolated query. -/
def validSortCol (c : String) : Bool :=
  c == "id" || c == "started_at" || c == "ended_at" || c == "caller_id" ||
  c == "callee_id" || c == "status" || c == "initial_metadata" ||
  c == "disposition" || c == "created_at" || c == "updated_at"

/-- Directions Postgres accepts after the column (the empty string defaults to
ascending). -/
def validSortDir (d : String) : Bool :=
  d == "asc" || d == "desc" || d == ""

/-- `ORDER BY <col> <dir>` over the filtered rows. -/
def sortSessions (c d : String) (l : List SessionRow) : List SessionRow :=
  let asc := List.insertionSort (fun a b => colLE c a b = true) l
  if d == "desc" then asc.reverse else asc

instance (c : String) : DecidableRel (fun a b => colLE c a b = true) :=
  fun a b => instDecidableEqBool (colLE c a b) true

/-- `SessionListResponse`: total, limit, offset, page of sessions. -/
structure SessionListResponse where
  total : Int
  limit : Int
  offset : Int
  sessions : List SessionRow
  deriving DecidableEq, Repr

/-- Appends one `AND <frag> $<n>` clause when `cond` holds, threading the
placeholder counter, as the `argCount` bookkeeping in `ListSessions` does. -/
def addClause (acc : String × Nat) (cond : Bool) (frag : String) : String × Nat :=
  if cond then (acc.1 ++ frag ++ "$" ++ toString acc.2, acc.2 + 1) else acc

/-- The filtered `WHERE` part of the query text `ListSessions`
(internal/model/session.go lines 232-262) assembles, with the next free
placeholder number. -/
def listQueryWhere (f : SessionFilter) : String × Nat :=
  let base := "SELECT id, started_at, ended_at, caller_id, callee_id, status, initial_metadata, disposition, created_at, updated_at FROM sessions WHERE 1=1"
  let acc := addClause (base, 1) f.startDate.isSome " AND started_at >= "
  let acc := addClause acc f.endDate.isSome " AND started_at <= "
  let acc := addClause acc (f.status != "") " AND status = "
  let acc := addClause acc (f.callerId != "") " AND caller_id = "
  addClause acc (f.calleeId != "") " AND callee_id = "

/-- The SQL text `ListSessions` (internal/model/session.go lines 232-274)
assembles for the page query.  `sort_by` and `sort_order` are interpolated
into the string verbatim by `fmt.Sprintf`; only the filter values travel as
placeholders. -/
def buildListQuery (f : SessionFilter) : String :=
  (listQueryWhere f).1 ++ " ORDER BY " ++ f.sortByCol ++ " " ++ f.sortOrder ++
    " LIMIT $" ++ toString (listQueryWhere f).2 ++
    " OFFSET $" ++ toString ((listQueryWhere f).2 + 1)

/-- `ListSessions` (internal/model/session.go lines 227-298): the count query
wraps the filtered query without `ORDER BY`/`LIMIT`/`OFFSET`, so the total is
the number of rows matching the filter; the page query then sorts by the
interpolated column and direction and applies `LIMIT`/`OFFSET`.  When the
interpolated sort text is not valid SQL the page query fails and the whole
call returns an error. -/
def listSessions (db : DB) (f : SessionFilter) : Except String SessionListResponse :=
  let filtered := db.sessions.filter (matchesFilter f)
  if validSortCol f.sortByCol && validSortDir f.sortOrder then
    .ok { total := filtered.length, limit := f.limit, offset := f.offset,
          sessions := (sortSessions f.sortByCol f.sortOrder filtered).drop
              f.offset.toNat |>.take f.limit.toNat }
  else .error "ORDER BY syntax error"

/-- The query parameters of `GET /api/sessions` after lexing: `none` or `""`
marks an absent parameter; numeric parameters carry their parsed value. -/
structure QueryParams where
  startDate : Option Int := none
  endDate : Option Int := none
  status : String := ""
  callerId : String := ""
  calleeId : String := ""
  limit : Option Int := none
  offset : Option Int := none
  sortByCol : String := ""
  sortOrder : String := ""
  deriving DecidableEq, Repr

/-- The filter `ListSessionsHandler` (internal/handler/SessionHandler.go lines
130-168) builds: it declares a zero-valued `SessionFilter` and copies each
query parameter only when present (`limit` additionally only when positive,
`offset` only when non-negative).  The `form` tag defaults of `SessionFilter`
are never consulted, since the handler never calls a query binder. -/
def parseFilter (p : QueryParams) : SessionFilter :=
  { startDate := p.startDate
    endDate := p.endDate
    status := p.status
    callerId := p.callerId
    calleeId := p.calleeId
    limit := match p.limit with | some l => if 0 < l then l else 0 | none => 0
    offset := match p.offset with | some o => if 0 ≤ o then o else 0 | none => 0
    sortByCol := p.sortByCol
    sortOrder := p.sortOrder }

/-- `ListSessionsHandler` (internal/handler/SessionHandler.go lines 130-184):
builds the filter, rejects a non-empty status outside
{ongoing, completed, failed} with 400, then delegates to `ListSessions`,
mapping its failure to 500.  The error value is the HTTP status code. -/
def listSessionsHandler (db : DB) (p : QueryParams) :
    Except Nat SessionListResponse :=
  let f := parseFilter p
  if f.status != "" && f.status != "ongoing" && f.status != "completed" &&
      f.status != "failed" then
    .error 400
  else
    match listSessions db f with
    | .ok resp => .ok resp
    | .error _ => .error 500

/-- `user_role` enum: 'user' | 'admin'. -/
inductive UserRole where
  | user
  | admin
  deriving DecidableEq, Repr

/-- A row of the `users` table. -/
structure UserRow where
  id : String
  email : String
  password : String
  role : UserRole
  createdAt : Int
  updatedAt : Int
  deriving DecidableEq, Repr

/-- `RegisterRequest`: email and password (binding: required, email, min=6). -/
structure RegisterRequest where
  email : String
  password : String
  deriving DecidableEq, Repr

/-- The users side of the store. -/
structure UserDB where
  users : List UserRow
  deriving DecidableEq, Repr

/-- Failure of `User.Register`. -/
inductive RegisterError where
  | alreadyExists
  deriving DecidableEq, Repr

/-- `User.Register` (internal/model, user file lines 61-102):
`SELECT EXISTS(SELECT 1 FROM users WHERE email = $1)`; on a duplicate email
fail with the conflict error; otherwise hash the password (the bcrypt digest
is the external collaborator's output, passed in as `hashed`), build the user
with a fresh id, `Role = UserRoleUser`, both timestamps `now`, and insert it. -/
def register (db : UserDB) (req : RegisterRequest) (newId hashed : String)
    (now : Int) : UserDB × Except RegisterError UserRow :=
  if db.users.any (fun u => u.email == req.email) then
    (db, .error .alreadyExists)
  else
    let u : UserRow :=
      { id := newId, email := req.email, password := hashed,
        role := .user, createdAt := now, updatedAt := now }
    ({ users := db.users ++ [u] }, .ok u)

/-- One atomic storage statement, the interleaving unit of the concurrency
model (§5 of the architecture: single-statement atomicity, request-parallel
workers, no in-process shared state).

* `endCas` — the conditional update of `Session.EndSession`;
* `insertSession` — the `INSERT INTO sessions` of `Session.StartSession`,
  subject to the primary key on `id` and `valid_session_times`;
* `insertEvent` — the `INSERT INTO session_events` of `SessionEvent.LogEvent`,
  subject to the foreign key on `session_id` and `valid_event_time`. -/
inductive Op where
  | endCas (sid : String) (req : EndSessionRequest) (now : Int)
  | insertSession (row : SessionRow)
  | insertEvent (eid sid : String) (req : LogEventRequest) (now : Int)
  deriving DecidableEq, Repr

/-- Whether an operation went through the request-binding layer: an `endCas`
carries a request gin accepted (`oneof=completed failed`); an `insertSession`
is the row `StartSession` builds (`status = ongoing`, no `ended_at`, no
disposition). -/
def Op.bindingOK : Op → Bool
  | .endCas _ req _ => req.wellFormed
  | .insertSession row =>
      row.status == SessionStatus.ongoing && row.endedAt == none &&
        row.disposition == none
  | .insertEvent _ _ _ _ => true

/-- Runs one atomic statement; the Bool reports whether it changed a row
(`true` exactly when the statement succeeded and affected a row). -/
def runOp (db : DB) : Op → DB × Bool
  | .endCas sid req now =>
    match casEndUpdate db sid req now with
    | (db2, .updated _) => (db2, true)
    | (db2, .noRows) => (db2, false)
    | (db2, .checkViolation) => (db2, false)
  | .insertSession row =>
    if db.sessions.any (fun s => s.id == row.id) then (db, false)
    else if match row.endedAt with | some e => decide (row.startedAt ≤ e) | none => true then
      ({ db with sessions := db.sessions ++ [row] }, true)
    else (db, false)
  | .insertEvent eid sid req now =>
    if db.sessions.any (fun s => s.id == sid) && now - oneYear ≤ req.eventTime then
      ({ db with events := db.events ++
          [{ id := eid, sessionId := sid, eventType := req.eventType,
             eventTime := req.eventTime, metadata := req.metadata,
             createdAt := now }] }, true)
    else (db, false)

/-- Whether an operation is the conditional end-update aimed at `sid`. -/
def Op.isEndOn (sid : String) : Op → Bool
  | .endCas sid2 _ _ => sid2 == sid
  | _ => false

/-- Runs a trace of atomic statements and counts how many of them were
end-updates on `sid` that succeeded in changing the row. -/
def endSuccessCount (db : DB) (ops : List Op) (sid : String) : Nat :=
  match ops with
  | [] => 0
  | op :: rest =>
    (if (runOp db op).2 && op.isEndOn sid then 1 else 0) +
      endSuccessCount (runOp db op).1 rest sid

/-- The session `sid` exists and is in a terminal state. -/
def isTerminal (db : DB) (sid : String) : Bool :=
  match findSession db sid with
  | some s => s.status != SessionStatus.ongoing
  | none => false

/-- A concrete ongoing session, used to evaluate the theorems. -/
def sampleSession : SessionRow :=
  { id := "s1", startedAt := 100, endedAt := none, callerId := "A",
    calleeId := "B", status := .ongoing, initialMetadata := none,
    disposition := none, createdAt := 100, updatedAt := 100 }

/-- A concrete session that has already completed. -/
def endedSession : SessionRow :=
  { id := "s2", startedAt := 50, endedAt := some 80, callerId := "A",
    calleeId := "B", status := .completed, initialMetadata := none,
    disposition := some "ok", createdAt := 50, updatedAt := 80 }

/-- The later event of the ongoing session, inserted first. -/
def eventT2 : EventRow :=
  { id := "e2", sessionId := "s1", eventType := "answer", eventTime := 140,
    metadata := none, createdAt := 141 }

/-- The earlier event of the ongoing session, inserted second. -/
def eventT1 : EventRow :=
  { id := "e1", sessionId := "s1", eventType := "ring", eventTime := 120,
    metadata := none, createdAt := 142 }

/-- A store holding one ongoing and one completed session, and two events of
the ongoing session inserted in reverse time order. -/
def sampleDB : DB :=
  { sessions := [sampleSession, endedSession], events := [eventT2, eventT1] }

/-- An empty users table. -/
def sampleUserDB : UserDB := { users := [] }

/-- A filter whose sort field carries an SQL injection payload. -/
def evilFilter : SessionFilter :=
  { sortByCol := "started_at; DROP TABLE sessions", sortOrder := "desc" }

/-- The zero-valued filter the handler builds when no query parameter is
supplied. -/
def zeroFilter : SessionFilter :=
  { startDate := none, endDate := none, status := "", callerId := "",
    calleeId := "", limit := 0, offset := 0, sortByCol := "", sortOrder := "" }

/-- The defaults the `form` tags and the API documentation promise: limit 50,
offset 0, sorted by started_at descending. -/
def documentedDefaultFilter : SessionFilter :=
  { startDate := none, endDate := none, status := "", callerId := "",
    calleeId := "", limit := 50, offset := 0, sortByCol := "started_at",
    sortOrder := "desc" }

/-- The user row `register` builds for the sample request. -/
def sampleUser : UserRow :=
  { id := "u1", email := "a@b.c", password := "hashed", role := .user,
    createdAt := 1, updatedAt := 1 }

/-- A concrete well-formed end request. -/
def sampleEndReq : EndSessionRequest :=
  { status := .completed, disposition := "ok", endTime := 200 }

/-- Two competing end attempts against the same session. -/
def sampleOps : List Op :=
  [.endCas "s1" sampleEndReq 200, .endCas "s1" sampleEndReq 201]

theorem find_id_map (l : List SessionRow) (sid : String) (g : SessionRow → SessionRow)
    (hg : ∀ r, (g r).id = r.id) :
    (l.map g).find? (fun r => r.id == sid) = (l.find? (fun r => r.id == sid)).map g := by
  rw [List.find?_map]
  have hcomp : ((fun r : SessionRow => r.id == sid) ∘ g) =
      (fun r : SessionRow => r.id == sid) := by
    funext r
    simp [Function.comp, hg r]
  rw [hcomp]

theorem applyEnd_id (req : EndSessionRequest) (now : Int) (r : SessionRow) :
    (applyEnd req now r).id = r.id := rfl

/-- When the session is already terminal, the conditional update matches no
row and leaves the store unchanged. -/
theorem casEnd_terminal_noRows (db : DB) (sid : String) (req : EndSessionRequest)
    (now : Int) (h : isTerminal db sid = true) :
    casEndUpdate db sid req now = (db, .noRows) := by
  unfold isTerminal at h
  cases hfind : findSession db sid with
  | none => simp only [hfind] at h; simp at h
  | some s =>
    simp only [hfind] at h
    have hne : ¬ s.status = SessionStatus.ongoing := by
      simpa [bne_iff_ne] using h
    simp [casEndUpdate, hfind, hne]

/-- A successful conditional update leaves the target session terminal
(the written status is a terminal one, by the request binding). -/
theorem casEnd_success_terminal (db db2 : DB) (sid : String)
    (req : EndSessionRequest) (now : Int) (row : SessionRow)
    (hwf : req.wellFormed = true)
    (h : casEndUpdate db sid req now = (db2, .updated row)) :
    isTerminal db2 sid = true := by
  cases hfind : findSession db sid with
  | none => simp [casEndUpdate, hfind] at h
  | some s =>
    simp only [casEndUpdate, hfind] at h
    by_cases h1 : s.status = SessionStatus.ongoing
    · by_cases h2 : s.startedAt ≤ req.endTime
      · rw [if_pos h1, if_pos h2] at h
        injection h with hdb hrow
        subst hdb
        have hfind2 : db.sessions.find? (fun r => r.id == sid) = some s := hfind
        have hsid0 := List.find?_some hfind2
        have hsid : (s.id == sid) = true := hsid0
        have hong : (s.status == SessionStatus.ongoing) = true := by
          simp [h1]
        have hterm : req.status ≠ SessionStatus.ongoing := by
          cases hq : req.status with
          | ongoing => simp [EndSessionRequest.wellFormed, hq] at hwf
          | completed => simp [hq]
          | failed => simp [hq]
        have hid : s.id = sid := by simpa [beq_iff_eq] using hsid
        unfold isTerminal findSession
        rw [find_id_map _ sid _ (fun r => by split <;> rfl), hfind2]
        simp [applyEnd, hid, h1, bne_iff_ne, hterm]
      · rw [if_pos h1, if_neg h2] at h
        simp at h
    · rw [if_neg h1] at h
      simp at h

/-- No atomic statement takes an existing terminal session back to a
non-terminal state: the end-update matches no terminal row, a session
insert with a taken id violates the primary key, and event inserts do not
touch the sessions table. -/
theorem runOp_preserves_terminal (db : DB) (sid : String) (op : Op)
    (h : isTerminal db sid = true) :
    isTerminal (runOp db op).1 sid = true := by
  cases op with
  | endCas sid2 req now =>
    by_cases hs : sid2 = sid
    · subst hs
      simp only [runOp, casEnd_terminal_noRows db sid2 req now h]
      exact h
    · cases hfind2 : findSession db sid2 with
      | none =>
        simp only [runOp, casEndUpdate, hfind2]
        exact h
      | some s2 =>
        by_cases h1 : s2.status = SessionStatus.ongoing
        · by_cases h2 : s2.startedAt ≤ req.endTime
          · simp only [runOp, casEndUpdate, hfind2, if_pos h1, if_pos h2]
            unfold isTerminal findSession at h ⊢
            cases hfind : db.sessions.find? (fun r => r.id == sid) with
            | none => rw [hfind] at h; simp at h
            | some s =>
              rw [hfind] at h
              have hsid0 := List.find?_some hfind
              have hsid : (s.id == sid) = true := hsid0
              have hid : s.id = sid := by simpa [beq_iff_eq] using hsid
              have hne2 : ¬ s.id = sid2 := fun hc => hs (hid ▸ hc).symm
              rw [find_id_map _ sid _ (fun r => by split <;> rfl), hfind]
              simpa [hne2] using h
          · simp only [runOp, casEndUpdate, hfind2, if_pos h1, if_neg h2]
            exact h
        · simp only [runOp, casEndUpdate, hfind2, if_neg h1]
          exact h
  | insertSession row =>
    simp only [runOp]
    by_cases hany : (db.sessions.any fun s => s.id == row.id) = true
    · simp only [if_pos hany]; exact h
    · simp only [if_neg hany]
      by_cases hchk : (match row.endedAt with
          | some e => decide (row.startedAt ≤ e) | none => true) = true
      · simp only [if_pos hchk]
        unfold isTerminal findSession at h ⊢
        rw [List.find?_append]
        cases hfind : db.sessions.find? (fun r => r.id == sid) with
        | none => rw [hfind] at h; simp at h
        | some s => rw [hfind] at h; simpa using h
      · simp only [if_neg hchk]; exact h
  | insertEvent eid sid2 req now =>
    simp only [runOp]
    by_cases hc : ((db.sessions.any fun s => s.id == sid2) &&
        decide (now - oneYear ≤ req.eventTime)) = true
    · simp only [if_pos hc]
      exact h
    · simp only [if_neg hc]
      exact h

/-- Once a session is terminal, no later end-update on it succeeds. -/
theorem terminal_count_zero (ops : List Op) (db : DB) (sid : String)
    (h : isTerminal db sid = true) :
    endSuccessCount db ops sid = 0 := by
  induction ops generalizing db with
  | nil => rfl
  | cons op rest ih =>
    unfold endSuccessCount
    have hrest : endSuccessCount (runOp db op).1 rest sid = 0 :=
      ih _ (runOp_preserves_terminal db sid op h)
    rw [hrest]
    by_cases hEnd : op.isEndOn sid = true
    · cases op with
      | endCas sid2 req now =>
        have hs : sid2 = sid := by simpa [Op.isEndOn] using hEnd
        subst hs
        simp [runOp, casEnd_terminal_noRows db sid2 req now h]
      | insertSession row => simp [Op.isEndOn] at hEnd
      | insertEvent eid sid2 req now => simp [Op.isEndOn] at hEnd
    · simp [hEnd]

/-- Claim C1: for every session and every interleaving of atomic storage
statements containing any number of EndSession conditional updates against
it, at most one of those updates succeeds in changing the session's state:
the transition from ongoing to a terminal status is guarded by
`WHERE id = sessionId AND status = 'ongoing'`, so a second concurrent or
subsequent end attempt never performs a second successful state change. -/
theorem c1_termination_at_most_once (db : DB) (ops : List Op) (sid : String)
    (h : ops.all Op.bindingOK = true) :
    endSuccessCount db ops sid ≤ 1 := by
  induction ops generalizing db with
  | nil => simp [endSuccessCount]
  | cons op rest ih =>
    rw [List.all_cons, Bool.and_eq_true] at h
    unfold endSuccessCount
    by_cases hc : ((runOp db op).2 && op.isEndOn sid) = true
    · rw [if_pos hc]
      have h2 := (Bool.and_eq_true _ _).mp hc
      cases op with
      | endCas sid2 req now =>
        have hs : sid2 = sid := by simpa [Op.isEndOn] using h2.2
        subst hs
        have hwf : req.wellFormed = true := by
          simpa [Op.bindingOK] using h.1
        have hterm : isTerminal (runOp db (.endCas sid2 req now)).1 sid2 = true := by
          rcases hcas : casEndUpdate db sid2 req now with ⟨db2, out⟩
          cases out with
          | updated r =>
            have hfst : (runOp db (.endCas sid2 req now)).1 = db2 := by
              simp [runOp, hcas]
            rw [hfst]
            exact casEnd_success_terminal db db2 sid2 req now r hwf hcas
          | noRows => simp [runOp, hcas] at hc
          | checkViolation => simp [runOp, hcas] at hc
        rw [terminal_count_zero rest _ sid2 hterm]
      | insertSession row => simp [Op.isEndOn] at h2
      | insertEvent eid sid2 req now => simp [Op.isEndOn] at h2
    · rw [if_neg hc]
      simpa using ih (runOp db op).1 h.2

/-- Evaluates C1 on a concrete store and a concrete pair of competing end
attempts. -/
theorem c1_termination_at_most_once_witness :
    sampleOps.all Op.bindingOK = true ∧
      endSuccessCount sampleDB sampleOps "s1" ≤ 1 :=
  ⟨by decide, c1_termination_at_most_once sampleDB sampleOps "s1" (by decide)⟩

/-- Claim C2: EndSession fails with NotFound iff no session with the id
exists; fails with AlreadyEnded (mapped to 409, message distinguished by the
read terminal state) iff the status read before the update is completed or
failed; and fails with the RaceLost condition, distinct from the others but
also mapped to 409, iff the pre-read saw ongoing but the conditional update
affected zero rows. -/
theorem c2_endSession_error_taxonomy (dbR dbU : DB) (sid : String)
    (req : EndSessionRequest) (now : Int) :
    ((endSessionPhased dbR dbU sid req now).2 = .error .notFound ↔
        findSession dbR sid = none) ∧
    (∀ st, (endSessionPhased dbR dbU sid req now).2 = .error (.alreadyEnded st) ↔
        ∃ s, findSession dbR sid = some s ∧ s.status = st ∧
          st ≠ SessionStatus.ongoing) ∧
    ((endSessionPhased dbR dbU sid req now).2 = .error .raceLost ↔
        ∃ s, findSession dbR sid = some s ∧ s.status = SessionStatus.ongoing ∧
          (casEndUpdate dbU sid req now).2 = .noRows) ∧
    (∀ st, endHandlerStatus (.error (.alreadyEnded st)) = 409) ∧
    endHandlerStatus (.error .raceLost) = 409 ∧
    endHandlerStatus (.error .notFound) = 404 := by
  refine ⟨?_, ?_, ?_, fun st => rfl, rfl, rfl⟩
  · cases hfind : findSession dbR sid with
    | none => simp [endSessionPhased, hfind]
    | some s =>
      cases hst : s.status with
      | ongoing =>
        rcases hcas : casEndUpdate dbU sid req now with ⟨db2, out⟩
        cases out <;> simp [endSessionPhased, hfind, hst, hcas]
      | completed => simp [endSessionPhased, hfind, hst]
      | failed => simp [endSessionPhased, hfind, hst]
  · intro st
    cases hfind : findSession dbR sid with
    | none => simp [endSessionPhased, hfind]
    | some s =>
      cases hst : s.status with
      | ongoing =>
        rcases hcas : casEndUpdate dbU sid req now with ⟨db2, out⟩
        cases out <;>
          simp [endSessionPhased, hfind, hst, hcas, eq_comm,
            fun h => (h : st = SessionStatus.ongoing)]
      | completed =>
        constructor
        · intro h
          refine ⟨s, rfl, ?_⟩
          have : SessionStatus.completed = st := by
            simpa [endSessionPhased, hfind, hst] using h
          subst this
          simp [hst]
        · rintro ⟨s2, hs2, hstat, hne⟩
          injection hs2 with hs2
          subst hs2
          rw [hst] at hstat
          subst hstat
          simp [endSessionPhased, hfind, hst]
      | failed =>
        constructor
        · intro h
          refine ⟨s, rfl, ?_⟩
          have : SessionStatus.failed = st := by
            simpa [endSessionPhased, hfind, hst] using h
          subst this
          simp [hst]
        · rintro ⟨s2, hs2, hstat, hne⟩
          injection hs2 with hs2
          subst hs2
          rw [hst] at hstat
          subst hstat
          simp [endSessionPhased, hfind, hst]
  · cases hfind : findSession dbR sid with
    | none => simp [endSessionPhased, hfind]
    | some s =>
      cases hst : s.status with
      | ongoing =>
        rcases hcas : casEndUpdate dbU sid req now with ⟨db2, out⟩
        cases out <;> simp [endSessionPhased, hfind, hst, hcas]
      | completed => simp [endSessionPhased, hfind, hst]
      | failed => simp [endSessionPhased, hfind, hst]

/-- Evaluates C2 on a concrete store: an unknown id yields NotFound. -/
theorem c2_endSession_error_taxonomy_witness :
    (endSessionPhased sampleDB sampleDB "nope" sampleEndReq 300).2 =
        .error .notFound ↔ findSession sampleDB "nope" = none :=
  (c2_endSession_error_taxonomy sampleDB sampleDB "nope" sampleEndReq 300).1

/-- Claim C3: LogEvent checks its preconditions in order — NotFound iff the
session is absent; SessionEnded iff it exists but is not ongoing (and then
the store is unchanged: no event is ever appended to a terminated session);
the temporal-bound ValidationFailed iff it is ongoing but the event time is
older than the trailing one-year window; otherwise the event is appended
with the server-assigned identifier and createdAt. -/
theorem c3_logEvent_precondition_order (db : DB) (sid : String)
    (req : LogEventRequest) (newId : String) (now : Int) :
    ((logEvent db sid req newId now).2 = .error .notFound ↔
        findSession db sid = none) ∧
    ((logEvent db sid req newId now).2 = .error .sessionEnded ↔
        ∃ s, findSession db sid = some s ∧ s.status ≠ SessionStatus.ongoing) ∧
    ((logEvent db sid req newId now).2 = .error .eventTimeCheckFailed ↔
        ∃ s, findSession db sid = some s ∧ s.status = SessionStatus.ongoing ∧
          req.eventTime < now - oneYear) ∧
    (∀ e, (logEvent db sid req newId now).2 = .ok e →
        e.id = newId ∧ e.createdAt = now ∧
          (logEvent db sid req newId now).1.events = db.events ++ [e]) ∧
    (∀ s, findSession db sid = some s → s.status ≠ SessionStatus.ongoing →
        (logEvent db sid req newId now).1 = db) := by
  cases hfind : findSession db sid with
  | none =>
    refine ⟨by simp [logEvent, hfind], by simp [logEvent, hfind],
      by simp [logEvent, hfind], ?_, ?_⟩
    · intro e he
      simp [logEvent, hfind] at he
    · intro s hs
      simp at hs
  | some s =>
    cases hst : s.status with
    | ongoing =>
      by_cases ht : now - oneYear ≤ req.eventTime
      · refine ⟨by simp [logEvent, hfind, hst, ht], ?_, ?_, ?_, ?_⟩
        · simp [logEvent, hfind, hst, ht]
        · simp [logEvent, hfind, hst, ht]
        · intro e he
          have he2 : e = (⟨newId, sid, req.eventType, req.eventTime,
              req.metadata, now⟩ : EventRow) := by
            simp [logEvent, hfind, hst, ht] at he
            exact he.symm
          subst he2
          refine ⟨rfl, rfl, ?_⟩
          simp [logEvent, hfind, hst, ht]
        · intro s2 hs2 hne
          injection hs2 with hs2
          subst hs2
          exact absurd hst hne
      · refine ⟨by simp [logEvent, hfind, hst, ht], ?_, ?_, ?_, ?_⟩
        · simp [logEvent, hfind, hst, ht]
        · simp [logEvent, hfind, hst, ht]
          omega
        · intro e he
          simp [logEvent, hfind, hst, ht] at he
        · intro s2 hs2 hne
          injection hs2 with hs2
          subst hs2
          exact absurd hst hne
    | completed =>
      refine ⟨by simp [logEvent, hfind, hst], ?_, ?_, ?_, ?_⟩
      · simp [logEvent, hfind, hst]
      · simp [logEvent, hfind, hst]
      · intro e he
        simp [logEvent, hfind, hst] at he
      · intro s2 hs2 hne
        simp [logEvent, hfind, hst]
    | failed =>
      refine ⟨by simp [logEvent, hfind, hst], ?_, ?_, ?_, ?_⟩
      · simp [logEvent, hfind, hst]
      · simp [logEvent, hfind, hst]
      · intro e he
        simp [logEvent, hfind, hst] at he
      · intro s2 hs2 hne
        simp [logEvent, hfind, hst]

/-- Evaluates C3 on a concrete store: an event logged to the ongoing session
is appended with the server-assigned id and creation time. -/
theorem c3_logEvent_precondition_order_witness :
    (logEvent sampleDB "s1" ⟨"ring", 120, none⟩ "e9" 150).2 =
        .ok ⟨"e9", "s1", "ring", 120, none, 150⟩ ∧
      (⟨"e9", "s1", "ring", 120, none, 150⟩ : EventRow).id = "e9" ∧
      (⟨"e9", "s1", "ring", 120, none, 150⟩ : EventRow).createdAt = 150 ∧
      (logEvent sampleDB "s1" ⟨"ring", 120, none⟩ "e9" 150).1.events =
        sampleDB.events ++ [⟨"e9", "s1", "ring", 120, none, 150⟩] := by
  refine ⟨rfl, ?_⟩
  exact (c3_logEvent_precondition_order sampleDB "s1" ⟨"ring", 120, none⟩
    "e9" 150).2.2.2.1 ⟨"e9", "s1", "ring", 120, none, 150⟩ rfl

/-- Claim C4: for a logging call against an existing ongoing session, an
eventTime strictly older than one year before the insertion time is always
rejected with the temporal-bound ValidationFailed (mapped to 400), while an
eventTime exactly one year before the insertion time is accepted — the bound
is inclusive, as in the `valid_event_time` check constraint. -/
theorem c4_event_time_one_year_bound (db : DB) (sid : String) (s : SessionRow)
    (req : LogEventRequest) (newId : String) (now : Int)
    (hfind : findSession db sid = some s)
    (hst : s.status = SessionStatus.ongoing) :
    ((logEvent db sid req newId now).2 = .error .eventTimeCheckFailed ↔
        req.eventTime < now - oneYear) ∧
    (req.eventTime = now - oneYear →
      (logEvent db sid req newId now).2 =
        .ok ⟨newId, sid, req.eventType, req.eventTime, req.metadata, now⟩) ∧
    ((logEvent db sid req newId now).2 = .error .eventTimeCheckFailed →
      logHandlerStatus (logEvent db sid req newId now).2 = 400) := by
  refine ⟨?_, ?_, ?_⟩
  · by_cases ht : now - oneYear ≤ req.eventTime
    · simp [logEvent, hfind, hst, ht]
    · simp [logEvent, hfind, hst, ht]
      omega
  · intro hb
    have ht : now - oneYear ≤ req.eventTime := le_of_eq hb.symm
    simp [logEvent, hfind, hst, ht]
  · intro h
    rw [h]
    rfl

/-- Evaluates C4 at the exact boundary: an event dated exactly one year
before insertion is accepted. -/
theorem c4_event_time_one_year_bound_witness :
    findSession sampleDB "s1" = some sampleSession ∧
      sampleSession.status = SessionStatus.ongoing ∧
      (logEvent sampleDB "s1" ⟨"ring", 150 - oneYear, none⟩ "e9" 150).2 =
        .ok ⟨"e9", "s1", "ring", 150 - oneYear, none, 150⟩ :=
  ⟨rfl, rfl,
    (c4_event_time_one_year_bound sampleDB "s1" sampleSession
      ⟨"ring", 150 - oneYear, none⟩ "e9" 150 rfl rfl).2.1 rfl⟩

/-- Claim C5: for an ongoing session, EndSession with endTime < startedAt is
always rejected — the storage check constraint fails the conditional update,
the failure surfaces as the ValidationFailed condition mapped to 400, and the
store is unchanged; endTime equal to startedAt is accepted. -/
theorem c5_end_time_not_before_start (db : DB) (sid : String) (s : SessionRow)
    (req : EndSessionRequest) (now : Int)
    (hfind : findSession db sid = some s)
    (hst : s.status = SessionStatus.ongoing) :
    ((endSession db sid req now).2 = .error .timeCheckFailed ↔
        req.endTime < s.startedAt) ∧
    (req.endTime < s.startedAt →
      endSession db sid req now = (db, .error .timeCheckFailed) ∧
        endHandlerStatus (endSession db sid req now).2 = 400) ∧
    (req.endTime = s.startedAt →
      (endSession db sid req now).2 = .ok (applyEnd req now s)) := by
  by_cases hle : s.startedAt ≤ req.endTime
  · refine ⟨?_, ?_, ?_⟩
    · simp [endSession, endSessionPhased, casEndUpdate, hfind, hst, hle]
    · intro hlt
      omega
    · intro heq
      simp [endSession, endSessionPhased, casEndUpdate, hfind, hst, hle]
  · refine ⟨?_, ?_, ?_⟩
    · simp [endSession, endSessionPhased, casEndUpdate, hfind, hst, hle]
      omega
    · intro hlt
      constructor
      · simp [endSession, endSessionPhased, casEndUpdate, hfind, hst, hle]
      · have hres : (endSession db sid req now).2 = .error .timeCheckFailed := by
          simp [endSession, endSessionPhased, casEndUpdate, hfind, hst, hle]
        rw [hres]
        rfl
    · intro heq
      exact absurd (le_of_eq heq.symm) hle

/-- Evaluates C5 on a concrete ongoing session: ending at time 99 when the
session started at 100 is rejected with 400 and leaves the store unchanged. -/
theorem c5_end_time_not_before_start_witness :
    endSession sampleDB "s1" ⟨.completed, "bad", 99⟩ 200 =
        (sampleDB, .error .timeCheckFailed) ∧
      endHandlerStatus (endSession sampleDB "s1" ⟨.completed, "bad", 99⟩ 200).2 =
        400 :=
  (c5_end_time_not_before_start sampleDB "s1" sampleSession
    ⟨.completed, "bad", 99⟩ 200 rfl rfl).2.1 (by decide)

/-- Claim C6: GetSessionDetails fails with NotFound iff the session does not
exist; on success it returns the stored session together with its events
ordered ascending by eventTime — a permutation of the stored events of that
session, independent of insertion order. -/
theorem c6_details_events_sorted (db : DB) (sid : String) :
    (getSessionDetails db sid = .error .notFound ↔ findSession db sid = none) ∧
    (∀ s evs, getSessionDetails db sid = .ok (s, evs) →
      findSession db sid = some s ∧ evs.Sorted eventLE ∧
        evs.Perm (db.events.filter (fun e => e.sessionId == sid))) := by
  cases hfind : findSession db sid with
  | none =>
    refine ⟨by simp [getSessionDetails, hfind], ?_⟩
    intro s evs h
    simp [getSessionDetails, hfind] at h
  | some s0 =>
    refine ⟨by simp [getSessionDetails, hfind], ?_⟩
    intro s evs h
    simp only [getSessionDetails, hfind, Except.ok.injEq, Prod.mk.injEq] at h
    obtain ⟨h1, h2⟩ := h
    subst h1
    subst h2
    exact ⟨rfl, List.sorted_insertionSort eventLE _,
      List.perm_insertionSort eventLE _⟩

/-- Evaluates C6 on the concrete store whose events were inserted with times
T2 then T1 (T1 < T2): the returned list is [T1, T2]. -/
theorem c6_details_events_sorted_witness :
    findSession sampleDB "s1" = some sampleSession ∧
      ([eventT1, eventT2] : List EventRow).Sorted eventLE ∧
      ([eventT1, eventT2] : List EventRow).Perm
        (sampleDB.events.filter (fun e => e.sessionId == "s1")) :=
  (c6_details_events_sorted sampleDB "s1").2 sampleSession [eventT1, eventT2] rfl

/-- Claim C7: the total reported by ListSessions depends only on the filter
predicate (date range, status, caller, callee) and not on the pagination
window: two calls that differ only in limit and offset report the same
total. -/
theorem c7_total_pagination_independent (db : DB) (f : SessionFilter)
    (l1 o1 l2 o2 : Int) :
    (listSessions db { f with limit := l1, offset := o1 }).map
        SessionListResponse.total =
      (listSessions db { f with limit := l2, offset := o2 }).map
        SessionListResponse.total := by
  have hm : ∀ l o : Int,
      matchesFilter { f with limit := l, offset := o } = matchesFilter f :=
    fun l o => funext fun s => rfl
  have hc : ∀ l o : Int,
      ({ f with limit := l, offset := o } : SessionFilter).sortByCol =
        f.sortByCol := fun l o => rfl
  have hd : ∀ l o : Int,
      ({ f with limit := l, offset := o } : SessionFilter).sortOrder =
        f.sortOrder := fun l o => rfl
  simp only [listSessions, hm, hc, hd]
  by_cases hv : (validSortCol f.sortByCol && validSortDir f.sortOrder) = true <;>
    simp [hv, Except.map]

/-- Claim C8 counterexample: a sort field far outside any allow-list of
column names is interpolated verbatim into the page query text, so the claim
that such values are not interpolated is false on the code. -/
theorem c8_sort_allowlist_counterexample :
    buildListQuery evilFilter =
      "SELECT id, started_at, ended_at, caller_id, callee_id, status, initial_metadata, disposition, created_at, updated_at FROM sessions WHERE 1=1 ORDER BY started_at; DROP TABLE sessions desc LIMIT $1 OFFSET $2" :=
  rfl

/-- Claim C8 as amended: ListSessions interpolates the caller-supplied sort
field and direction verbatim into the query text with no allow-list, while a
status filter value that is not ongoing, completed or failed is rejected by
the handler with ValidationFailed (400) rather than silently ignored. -/
theorem c8_sort_interpolated_status_rejected (db : DB) (f : SessionFilter)
    (p : QueryParams) (h1 : p.status ≠ "") (h2 : p.status ≠ "ongoing")
    (h3 : p.status ≠ "completed") (h4 : p.status ≠ "failed") :
    buildListQuery f =
      (listQueryWhere f).1 ++ " ORDER BY " ++ f.sortByCol ++ " " ++
        f.sortOrder ++ " LIMIT $" ++ toString (listQueryWhere f).2 ++
        " OFFSET $" ++ toString ((listQueryWhere f).2 + 1) ∧
    listSessionsHandler db p = .error 400 := by
  refine ⟨rfl, ?_⟩
  simp [listSessionsHandler, parseFilter, h1, h2, h3, h4]

/-- Evaluates the amended C8 at a concrete unrecognized status value. -/
theorem c8_sort_interpolated_status_rejected_witness :
    buildListQuery {} =
      (listQueryWhere {}).1 ++ " ORDER BY " ++ SessionFilter.sortByCol {} ++
        " " ++ SessionFilter.sortOrder {} ++ " LIMIT $" ++
        toString (listQueryWhere {}).2 ++ " OFFSET $" ++
        toString ((listQueryWhere {}).2 + 1) ∧
    listSessionsHandler sampleDB { status := "bogus" } = .error 400 :=
  c8_sort_interpolated_status_rejected sampleDB {} { status := "bogus" }
    (by decide) (by decide) (by decide) (by decide)

/-- Claim C9 identifies a code bug: with no query parameters, the handler
builds a zero-valued filter — the `form` tag defaults (limit 50, offset 0,
sort by started_at descending) are never applied because the handler parses
parameters by hand — so the documented defaults are absent, the page query is
not well-formed SQL (empty ORDER BY target), and the request fails with 500
instead of returning up to 50 sessions sorted by started_at descending. -/
theorem c9_defaults_never_applied :
    parseFilter {} = zeroFilter ∧
      parseFilter {} ≠ documentedDefaultFilter ∧
      listSessionsHandler sampleDB {} = .error 500 :=
  ⟨rfl, by decide, rfl⟩

/-- Claim C10: every principal created through Register is assigned the role
user — whenever registration succeeds, the returned user and the stored row
both carry role user, never admin. -/
theorem c10_register_role_always_user (db : UserDB) (req : RegisterRequest)
    (newId hashed : String) (now : Int) (db2 : UserDB) (u : UserRow)
    (h : register db req newId hashed now = (db2, .ok u)) :
    u.role = UserRole.user ∧ db2.users = db.users ++ [u] := by
  unfold register at h
  by_cases hex : (db.users.any fun v => v.email == req.email) = true
  · rw [if_pos hex] at h
    simp at h
  · rw [if_neg hex] at h
    injection h with hdb hok
    injection hok with hu
    subst hu
    subst hdb
    exact ⟨rfl, rfl⟩

/-- Evaluates C10 on a concrete registration against an empty users table. -/
theorem c10_register_role_always_user_witness :
    sampleUser.role = UserRole.user ∧
      ({ users := [sampleUser] } : UserDB).users =
        sampleUserDB.users ++ [sampleUser] :=
  c10_register_role_always_user sampleUserDB ⟨"a@b.c", "secret"⟩ "u1" "hashed"
    1 { users := [sampleUser] } sampleUser rfl

end CallSession
